import Mathlib

/-!
Verification development for the WolfBet multi-strategy dice bot
(repository files `bot.py` and `bot1.py`).

The staking engine is shallowly embedded: monetary amounts are rationals,
Python's `round(x, 8)` is modelled by `round8`, the per-round randomness
(`random.uniform`, the over/under coin) is passed in explicitly as part of
the round input, and the body of `main_loop` is a step function from a
bot state and a round input to either a halt, a retry (unusable server
response) or a successor state.  `Bot` embeds `bot.py`, `Bot1` embeds
`bot1.py`.
-/

/-- Python's `round(x, 8)`: round to 8 fractional digits. -/
def round8 (q : ℚ) : ℚ := ((round (q * 100000000) : ℤ) : ℚ) / 100000000

/-- Membership in the 8-fractional-digit wager grid. -/
def Grid8 (q : ℚ) : Prop := ∃ z : ℤ, q = (z : ℚ) / 100000000

theorem Grid8.round8_eq {q : ℚ} (h : Grid8 q) : round8 q = q := by
  obtain ⟨z, rfl⟩ := h
  have hz : ((z : ℚ) / 100000000) * 100000000 = (z : ℚ) := by
    field_simp
  rw [round8, hz, round_intCast]

theorem round8_grid8 (q : ℚ) : Grid8 (round8 q) := ⟨round (q * 100000000), rfl⟩

theorem round8_mono {a b : ℚ} (h : a ≤ b) : round8 a ≤ round8 b := by
  have h1 : a * 100000000 ≤ b * 100000000 := by nlinarith
  have h2 : round (a * 100000000) ≤ round (b * 100000000) := by
    rw [round_eq, round_eq]
    exact Int.floor_mono (by linarith)
  rw [round8, round8]
  have : ((round (a * 100000000) : ℤ) : ℚ) ≤ ((round (b * 100000000) : ℤ) : ℚ) :=
    Int.cast_le.mpr h2
  linarith

theorem Grid8.add {a b : ℚ} (ha : Grid8 a) (hb : Grid8 b) : Grid8 (a + b) := by
  obtain ⟨x, rfl⟩ := ha
  obtain ⟨y, rfl⟩ := hb
  exact ⟨x + y, by push_cast; ring⟩

theorem Grid8.abs {a : ℚ} (ha : Grid8 a) : Grid8 |a| := by
  obtain ⟨x, rfl⟩ := ha
  rcases abs_choice ((x : ℚ) / 100000000) with h | h
  · exact ⟨x, by rw [h]⟩
  · exact ⟨-x, by rw [h]; push_cast; ring⟩

theorem Grid8.max {a b : ℚ} (ha : Grid8 a) (hb : Grid8 b) : Grid8 (max a b) := by
  rcases max_choice a b with h | h
  · rw [h]; exact ha
  · rw [h]; exact hb

theorem Grid8.natMul {a : ℚ} (ha : Grid8 a) (n : ℕ) : Grid8 ((n : ℚ) * a) := by
  obtain ⟨x, rfl⟩ := ha
  exact ⟨n * x, by push_cast; ring⟩

/-- The payload of a usable `/bet/place` response: the fields the loop reads. -/
structure BetResult where
  state : String
  profit : ℚ
  amount : ℚ
  deriving DecidableEq, Repr

/-- One round's external inputs: the server response (`none` models a network
failure, undecodable JSON or a response with no usable `bet` payload — all
are handled identically by the loop), the coin used by `rule_mode = "auto"`,
and the round's `random.uniform` sampler. -/
structure RoundInput where
  response : Option BetResult
  coin : Bool
  uniform : ℚ → ℚ → ℚ

/-- Property of `random.uniform`: the result lies between its two arguments. -/
def UniformOk (u : ℚ → ℚ → ℚ) : Prop :=
  ∀ a b : ℚ, min a b ≤ u a b ∧ u a b ≤ max a b

/-- Session end states of the controller. -/
inductive Status where
  | running
  | haltedStopLoss
  | haltedTakeProfit
  deriving DecidableEq, Repr

namespace Bot

/-- Immutable configuration of `bot.py` (the fields the staking engine reads). -/
structure Config where
  base_bet : ℚ
  multiplier : ℚ
  max_bet : ℚ
  chance : ℚ
  rule_mode : String
  take_profit : ℚ
  stop_loss : ℚ
  strategy : String
  auto_strategy_change : Bool
  strategy_cycle : List String
  strategy_switch_mode : String
  loss_streak_trigger : ℕ
  jackpot_raise_min : ℚ
  jackpot_raise_max : ℚ
  high_risk_raise_min : ℚ
  high_risk_raise_max : ℚ
  high_risk_interval : ℕ
  randomized_mode : String
  randomized_min_mult : ℚ
  randomized_max_mult : ℚ
  deriving Repr

/-- Mutable runtime state of `bot.py` (`__init__` / `main_loop` fields).
`bet_history`, the UI and `override_chance` (never set to anything but
`None` in `bot.py`) are omitted: nothing reads them back into the staking
logic. -/
structure State where
  session_profit : ℚ
  current_bet : ℚ
  loss_streak_total : ℚ
  loss_streak_count : ℕ
  current_strategy : String
  strategy_index : ℕ
  last_loss_amount : ℚ
  last_outcome : Option String
  fibo_seq : List ℚ
  total_bets : ℕ
  win_count : ℕ
  lose_count : ℕ
  jackpot_streak : ℕ
  high_risk_streak : ℕ
  last_bet_amount : ℚ
  deriving DecidableEq, Repr

/-- Embeds `WolfBetBot.get_starting_bet_for_strategy`. -/
def get_starting_bet_for_strategy (cfg : Config) (s : State) (strategy : String) : ℚ :=
  if strategy = "jackpot_hunter" ∨ strategy = "high_risk_pulse" ∨ strategy = "randomized" then
    if s.last_bet_amount > 0 then s.last_bet_amount else cfg.base_bet
  else cfg.base_bet

/-- Embeds `WolfBetBot.strat_martingale`. -/
def strat_martingale (cfg : Config) (win : Bool) (last_bet : ℚ) : ℚ :=
  if win then cfg.base_bet else round8 (last_bet * cfg.multiplier)

/-- The loss arm of `strat_fibonacci`: extend `fibo_seq` by `base_bet` while
it has fewer than two terms, else by the sum of its last two terms. -/
def fiboAdvance (base : ℚ) (seq : List ℚ) : List ℚ :=
  if seq.length < 2 then seq ++ [base]
  else seq ++ [seq.getLastD 0 + seq.dropLast.getLastD 0]

/-- Embeds `WolfBetBot.strat_fibonacci` (mutates `fibo_seq`). -/
def strat_fibonacci (cfg : Config) (win : Bool) (s : State) : ℚ × State :=
  if win then (cfg.base_bet, { s with fibo_seq := [cfg.base_bet] })
  else
    let seq := fiboAdvance cfg.base_bet s.fibo_seq
    (round8 (seq.getLastD 0), { s with fibo_seq := seq })

/-- Embeds `WolfBetBot.strat_flat`. -/
def strat_flat (cfg : Config) (_win : Bool) (_last_bet : ℚ) : ℚ := cfg.base_bet

/-- Embeds `WolfBetBot.strat_jackpot_hunter` (mutates `jackpot_streak`). -/
def strat_jackpot_hunter (cfg : Config) (s : State) (uniform : ℚ → ℚ → ℚ) : ℚ × State :=
  let start := if s.last_bet_amount > 0 then s.last_bet_amount else cfg.base_bet
  if s.last_outcome = some "lose" then
    let streak := s.jackpot_streak + 1
    let bet := if streak = 1 then start
      else round8 (start * uniform cfg.jackpot_raise_min cfg.jackpot_raise_max)
    (bet, { s with jackpot_streak := streak })
  else
    (start, { s with jackpot_streak := 0 })

/-- Embeds `WolfBetBot.strat_high_risk_pulse` (mutates `high_risk_streak`). -/
def strat_high_risk_pulse (cfg : Config) (s : State) (uniform : ℚ → ℚ → ℚ) : ℚ × State :=
  let start := if s.last_bet_amount > 0 then s.last_bet_amount else cfg.base_bet
  if s.last_outcome = some "lose" then
    (round8 (start * uniform cfg.high_risk_raise_min cfg.high_risk_raise_max),
      { s with high_risk_streak := s.high_risk_streak + 1 })
  else
    let bet := if 0 < s.total_bets ∧ s.total_bets % cfg.high_risk_interval = 0 then
        round8 (start * 2)
      else start
    (bet, { s with high_risk_streak := 0 })

/-- Embeds `WolfBetBot.strat_randomized`. -/
def strat_randomized (cfg : Config) (s : State) (uniform : ℚ → ℚ → ℚ) : ℚ :=
  let start := if s.last_bet_amount > 0 then s.last_bet_amount else cfg.base_bet
  if cfg.randomized_mode = "multiplier" then
    round8 (start * uniform cfg.randomized_min_mult cfg.randomized_max_mult)
  else
    let upper := max s.last_loss_amount start
    round8 (uniform cfg.base_bet upper)

/-- The strategy dispatch of `main_loop` (identical if/elif chain in the win
and loss arms; unknown strategy names fall back to the base wager). -/
def dispatchNext (cfg : Config) (win : Bool) (s : State) (uniform : ℚ → ℚ → ℚ) : State :=
  if s.current_strategy = "martingale" then
    { s with current_bet := strat_martingale cfg win s.current_bet }
  else if s.current_strategy = "fibonacci" then
    let r := strat_fibonacci cfg win s
    { r.2 with current_bet := r.1 }
  else if s.current_strategy = "flat" then
    { s with current_bet := strat_flat cfg win s.current_bet }
  else if s.current_strategy = "jackpot_hunter" then
    let r := strat_jackpot_hunter cfg s uniform
    { r.2 with current_bet := r.1 }
  else if s.current_strategy = "high_risk_pulse" then
    let r := strat_high_risk_pulse cfg s uniform
    { r.2 with current_bet := r.1 }
  else if s.current_strategy = "randomized" then
    { s with current_bet := strat_randomized cfg s uniform }
  else
    { s with current_bet := cfg.base_bet }

/-- The strategy-switch block of `main_loop`: advance in the cycle and
reseed the starting wager for the new strategy. -/
def switchStrategy (cfg : Config) (s : State) : State :=
  let idx := (s.strategy_index + 1) % cfg.strategy_cycle.length
  let strat := cfg.strategy_cycle.getD idx ""
  let s1 := { s with strategy_index := idx, current_strategy := strat }
  { s1 with current_bet := get_starting_bet_for_strategy cfg s1 strat }

/-- The `max_bet` cap at the top of the loop body: `bot.py` mutates
`current_bet` in place before placing the bet (`max_bet = 0` disables). -/
def capState (cfg : Config) (s : State) : State :=
  if cfg.max_bet > 0 ∧ s.current_bet > cfg.max_bet then
    { s with current_bet := cfg.max_bet }
  else s

/-- Bookkeeping done for every usable response before the win/lose split:
`total_bets += 1`, `last_bet_amount = amount`, `last_outcome = state`. -/
def recordRound (s : State) (bet : BetResult) : State :=
  { s with
    total_bets := s.total_bets + 1
    last_bet_amount := bet.amount
    last_outcome := some bet.state }

/-- The ledger part of the win arm of `main_loop`. -/
def winLedger (s : State) (bet : BetResult) : State :=
  { s with
    session_profit := s.session_profit + bet.profit
    win_count := s.win_count + 1
    loss_streak_total := 0
    loss_streak_count := 0
    last_loss_amount := 0 }

/-- The win arm of `main_loop`. -/
def winUpdate (cfg : Config) (s : State) (inp : RoundInput) (bet : BetResult) : State :=
  let s2 := dispatchNext cfg true (winLedger s bet) inp.uniform
  if cfg.auto_strategy_change ∧ cfg.strategy_switch_mode = "on_win" ∧
      cfg.strategy_cycle ≠ [] then
    switchStrategy cfg s2
  else s2

/-- The ledger part of the loss arm of `main_loop`. -/
def lossLedger (s : State) (bet : BetResult) : State :=
  let la := bet.amount
  { s with
    session_profit := s.session_profit - la
    lose_count := s.lose_count + 1
    loss_streak_count := s.loss_streak_count + 1
    loss_streak_total := s.loss_streak_total + la
    last_loss_amount := la }

/-- The loss arm of `main_loop`. -/
def lossUpdate (cfg : Config) (s : State) (inp : RoundInput) (bet : BetResult) : State :=
  let s2 := dispatchNext cfg false (lossLedger s bet) inp.uniform
  if cfg.auto_strategy_change ∧ cfg.strategy_switch_mode = "on_loss_streak" ∧
      cfg.strategy_cycle ≠ [] then
    if s2.loss_streak_count ≥ cfg.loss_streak_trigger then
      { switchStrategy cfg s2 with loss_streak_count := 0 }
    else s2
  else s2

/-- Result of one pass through the `while True` body. -/
inductive StepRes where
  | halt (st : Status)
  | retry (wager : ℚ) (s : State)
  | next (wager : ℚ) (s : State)
  deriving DecidableEq, Repr

/-- One pass through the `while True` body of `bot.py`'s `main_loop`:
halt checks, `max_bet` cap, bet placement, then win/lose processing.
The submitted wager is carried on the non-halt constructors. -/
def step (cfg : Config) (s : State) (inp : RoundInput) : StepRes :=
  if s.session_profit ≤ cfg.stop_loss then .halt .haltedStopLoss
  else if s.session_profit ≥ cfg.take_profit then .halt .haltedTakeProfit
  else
    let s1 := capState cfg s
    match inp.response with
    | none => .retry s1.current_bet s1
    | some bet =>
      let s2 := recordRound s1 bet
      if bet.state = "win" then .next s1.current_bet (winUpdate cfg s2 inp bet)
      else .next s1.current_bet (lossUpdate cfg s2 inp bet)

/-- Run the loop on a list of round inputs; returns the submitted wagers in
order and the final status (`running` only when the inputs ran out). -/
def run (cfg : Config) : State → List RoundInput → List ℚ × Status
  | _, [] => ([], .running)
  | s, inp :: rest =>
    match step cfg s inp with
    | .halt st => ([], st)
    | .retry w s1 =>
      let r := run cfg s1 rest
      (w :: r.1, r.2)
    | .next w s1 =>
      let r := run cfg s1 rest
      (w :: r.1, r.2)

/-- The "reset runtime state" block at the top of `main_loop` (`bot.py`):
note that `current_bet` is recomputed from `last_bet_amount` *before*
`last_bet_amount` is cleared, and that `fibo_seq`, `jackpot_streak`,
`high_risk_streak`, `current_strategy` and `strategy_index` are not touched. -/
def sessionInit (cfg : Config) (s : State) : State :=
  let s1 := { s with session_profit := 0 }
  let s2 := { s1 with
    current_bet := get_starting_bet_for_strategy cfg s1 s1.current_strategy }
  { s2 with
    loss_streak_total := 0
    loss_streak_count := 0
    last_loss_amount := 0
    last_outcome := none
    total_bets := 0
    win_count := 0
    lose_count := 0
    last_bet_amount := 0 }

/-- The state after one processed round (identity on halt). -/
def stateAfter (cfg : Config) (s : State) (inp : RoundInput) : State :=
  match step cfg s inp with
  | .halt _ => s
  | .retry _ s1 => s1
  | .next _ s1 => s1

end Bot

namespace Bot1

/-- Immutable configuration of `bot1.py` (no `max_bet` in this version,
no `randomized_mode`/multiplier bounds). -/
structure Config where
  base_bet : ℚ
  multiplier : ℚ
  chance : ℚ
  rule_mode : String
  take_profit : ℚ
  stop_loss : ℚ
  strategy : String
  auto_strategy_change : Bool
  strategy_cycle : List String
  strategy_switch_mode : String
  loss_streak_trigger : ℕ
  jackpot_chance : ℚ
  jackpot_raise_min : ℚ
  jackpot_raise_max : ℚ
  high_risk_chance : ℚ
  high_risk_raise_min : ℚ
  high_risk_raise_max : ℚ
  high_risk_interval : ℕ
  deriving Repr

/-- Mutable runtime state of `bot1.py` (no `last_bet_amount` and no
jackpot/high-risk streak counters in this version; `bet_history` and the UI
are omitted as in `Bot.State`). -/
structure State where
  session_profit : ℚ
  current_bet : ℚ
  loss_streak_total : ℚ
  loss_streak_count : ℕ
  current_strategy : String
  strategy_index : ℕ
  last_loss_amount : ℚ
  last_outcome : Option String
  override_chance : Option ℚ
  fibo_seq : List ℚ
  total_bets : ℕ
  win_count : ℕ
  lose_count : ℕ
  deriving DecidableEq, Repr

/-- Embeds `WolfBetBot.strat_martingale` (`bot1.py`, identical text to `bot.py`). -/
def strat_martingale (cfg : Config) (win : Bool) (last_bet : ℚ) : ℚ :=
  if win then cfg.base_bet else round8 (last_bet * cfg.multiplier)

/-- Embeds `WolfBetBot.strat_fibonacci` (`bot1.py`, identical text to `bot.py`). -/
def strat_fibonacci (cfg : Config) (win : Bool) (s : State) : ℚ × State :=
  if win then (cfg.base_bet, { s with fibo_seq := [cfg.base_bet] })
  else
    let seq := Bot.fiboAdvance cfg.base_bet s.fibo_seq
    (round8 (seq.getLastD 0), { s with fibo_seq := seq })

/-- Embeds `WolfBetBot.strat_dalembert` (`bot1.py` only): step is 25% of the base. -/
def strat_dalembert (cfg : Config) (win : Bool) (last_bet : ℚ) : ℚ :=
  let stepAmt := cfg.base_bet * (25 / 100)
  if win then max cfg.base_bet (round8 (last_bet - stepAmt))
  else round8 (last_bet + stepAmt)

/-- Embeds `WolfBetBot.strat_flat` (`bot1.py`). -/
def strat_flat (cfg : Config) (_win : Bool) (_last_bet : ℚ) : ℚ := cfg.base_bet

/-- Embeds `WolfBetBot.strat_jackpot_hunter` (`bot1.py`): sets the chance override
and raises on *every* loss, the first included. -/
def strat_jackpot_hunter (cfg : Config) (s : State) (uniform : ℚ → ℚ → ℚ) : ℚ × State :=
  let s1 := { s with override_chance := some cfg.jackpot_chance }
  if s1.last_outcome = some "lose" then
    (round8 (s1.current_bet * uniform cfg.jackpot_raise_min cfg.jackpot_raise_max), s1)
  else
    (cfg.base_bet, s1)

/-- Embeds `WolfBetBot.strat_high_risk_pulse` (`bot1.py`). -/
def strat_high_risk_pulse (cfg : Config) (s : State) (uniform : ℚ → ℚ → ℚ) : ℚ × State :=
  let s1 := { s with override_chance := some cfg.high_risk_chance }
  if s1.last_outcome = some "lose" then
    (round8 (s1.current_bet * uniform cfg.high_risk_raise_min cfg.high_risk_raise_max), s1)
  else
    let bet := if 0 < s1.total_bets ∧ s1.total_bets % cfg.high_risk_interval = 0 then
        round8 (cfg.base_bet * 5)
      else cfg.base_bet
    (bet, s1)

/-- Embeds `WolfBetBot.strat_randomized` (`bot1.py`): uniform between the base bet
and the last loss amount. -/
def strat_randomized (cfg : Config) (s : State) (uniform : ℚ → ℚ → ℚ) : ℚ :=
  let upper := max s.last_loss_amount cfg.base_bet
  round8 (uniform cfg.base_bet upper)

/-- The strategy dispatch of `bot1.py`'s `main_loop` (both arms): returns the
strategy's proposed bet and the state as mutated by the strategy call. -/
def dispatchNext (cfg : Config) (win : Bool) (s : State) (uniform : ℚ → ℚ → ℚ) : ℚ × State :=
  if s.current_strategy = "martingale" then (strat_martingale cfg win s.current_bet, s)
  else if s.current_strategy = "fibonacci" then strat_fibonacci cfg win s
  else if s.current_strategy = "dalembert" then (strat_dalembert cfg win s.current_bet, s)
  else if s.current_strategy = "flat" then (strat_flat cfg win s.current_bet, s)
  else if s.current_strategy = "jackpot_hunter" then strat_jackpot_hunter cfg s uniform
  else if s.current_strategy = "high_risk_pulse" then strat_high_risk_pulse cfg s uniform
  else if s.current_strategy = "randomized" then (strat_randomized cfg s uniform, s)
  else (cfg.base_bet, s)

/-- The strategy-switch block of `bot1.py`: advance in the cycle.  Unlike
`bot.py` it does *not* reseed `current_bet`. -/
def switchStrategy (cfg : Config) (s : State) : State :=
  let idx := (s.strategy_index + 1) % cfg.strategy_cycle.length
  { s with strategy_index := idx, current_strategy := cfg.strategy_cycle.getD idx "" }

/-- Bookkeeping for every usable response before the win/lose split
(`bot1.py` has no `last_bet_amount`). -/
def recordRound (s : State) (bet : BetResult) : State :=
  { s with
    total_bets := s.total_bets + 1
    last_outcome := some bet.state }

/-- The ledger part of the win arm of `bot1.py`'s `main_loop`: note
`last_loss_amount` resets to the *base bet* here, not to zero. -/
def winLedger (cfg : Config) (s : State) (bet : BetResult) : State :=
  { s with
    session_profit := s.session_profit + bet.profit
    win_count := s.win_count + 1
    loss_streak_total := 0
    loss_streak_count := 0
    last_loss_amount := cfg.base_bet }

/-- The win arm of `bot1.py`'s `main_loop`. -/
def winUpdate (cfg : Config) (s : State) (inp : RoundInput) (bet : BetResult) : State :=
  let r := dispatchNext cfg true (winLedger cfg s bet) inp.uniform
  let s2 := { r.2 with current_bet := r.1 }
  if cfg.auto_strategy_change ∧ cfg.strategy_switch_mode = "on_win" ∧
      cfg.strategy_cycle.length > 0 then
    switchStrategy cfg s2
  else s2

/-- The ledger part of the loss arm of `bot1.py`'s `main_loop`. -/
def lossLedger (s : State) (bet : BetResult) : State :=
  let la := bet.amount
  { s with
    session_profit := s.session_profit - la
    lose_count := s.lose_count + 1
    loss_streak_count := s.loss_streak_count + 1
    loss_streak_total := s.loss_streak_total + la
    last_loss_amount := la }

/-- The loss arm of `bot1.py`'s `main_loop`: strategy bet, cover-loss
floor, rounding — no `max_bet` cap in this version. -/
def lossUpdate (cfg : Config) (s : State) (inp : RoundInput) (bet : BetResult) : State :=
  let r := dispatchNext cfg false (lossLedger s bet) inp.uniform
  let cover_needed := |r.2.loss_streak_total| + cfg.base_bet
  let next_bet := if r.1 < cover_needed then cover_needed else r.1
  let s2 := { r.2 with current_bet := round8 next_bet }
  if cfg.auto_strategy_change ∧ cfg.strategy_switch_mode = "on_loss_streak" then
    if s2.loss_streak_count ≥ cfg.loss_streak_trigger ∧ cfg.strategy_cycle.length > 0 then
      { switchStrategy cfg s2 with loss_streak_count := 0 }
    else s2
  else s2

/-- Result of one pass through the `while True` body of `bot1.py`. -/
inductive StepRes where
  | halt (st : Status)
  | retry (wager : ℚ) (s : State)
  | next (wager : ℚ) (s : State)
  deriving DecidableEq, Repr

/-- One pass through the `while True` body of `bot1.py`'s `main_loop`:
halt checks, bet placement (no cap), then win/lose processing. -/
def step (cfg : Config) (s : State) (inp : RoundInput) : StepRes :=
  if s.session_profit ≤ cfg.stop_loss then .halt .haltedStopLoss
  else if s.session_profit ≥ cfg.take_profit then .halt .haltedTakeProfit
  else
    match inp.response with
    | none => .retry s.current_bet s
    | some bet =>
      let s2 := recordRound s bet
      if bet.state = "win" then .next s.current_bet (winUpdate cfg s2 inp bet)
      else .next s.current_bet (lossUpdate cfg s2 inp bet)

/-- Run the `bot1.py` loop on a list of round inputs. -/
def run (cfg : Config) : State → List RoundInput → List ℚ × Status
  | _, [] => ([], .running)
  | s, inp :: rest =>
    match step cfg s inp with
    | .halt st => ([], st)
    | .retry w s1 =>
      let r := run cfg s1 rest
      (w :: r.1, r.2)
    | .next w s1 =>
      let r := run cfg s1 rest
      (w :: r.1, r.2)

/-- The "reset runtime state" block at the top of `bot1.py`'s `main_loop`:
resets the ledger, the wager, the active strategy and its index — but not
`fibo_seq`. -/
def sessionInit (cfg : Config) (s : State) : State :=
  let s1 := { s with
    session_profit := 0
    current_bet := cfg.base_bet
    loss_streak_total := 0
    loss_streak_count := 0
    last_loss_amount := cfg.base_bet
    last_outcome := none
    override_chance := none
    total_bets := 0
    win_count := 0
    lose_count := 0
    current_strategy := cfg.strategy }
  if s1.current_strategy ∈ cfg.strategy_cycle then
    { s1 with strategy_index := cfg.strategy_cycle.indexOf s1.current_strategy }
  else
    { s1 with strategy_index := 0 }

/-- The state after one processed round (identity on halt). -/
def stateAfter (cfg : Config) (s : State) (inp : RoundInput) : State :=
  match step cfg s inp with
  | .halt _ => s
  | .retry _ s1 => s1
  | .next _ s1 => s1

end Bot1

/-! ### Concrete fixtures used by witnesses and counterexamples -/

/-- A neutral `bot.py` configuration (martingale, no auto-switch). -/
def exCfg : Bot.Config where
  base_bet := 1
  multiplier := 2
  max_bet := 100
  chance := 495/10
  rule_mode := "under"
  take_profit := 1000
  stop_loss := -1000
  strategy := "martingale"
  auto_strategy_change := false
  strategy_cycle := ["martingale"]
  strategy_switch_mode := "on_win"
  loss_streak_trigger := 5
  jackpot_raise_min := 102/100
  jackpot_raise_max := 105/100
  high_risk_raise_min := 110/100
  high_risk_raise_max := 120/100
  high_risk_interval := 20
  randomized_mode := "multiplier"
  randomized_min_mult := 102/100
  randomized_max_mult := 150/100

/-- A fresh `bot.py` state as produced by `__init__` for `exCfg`. -/
def exSt : Bot.State where
  session_profit := 0
  current_bet := 1
  loss_streak_total := 0
  loss_streak_count := 0
  current_strategy := "martingale"
  strategy_index := 0
  last_loss_amount := 0
  last_outcome := none
  fibo_seq := [1]
  total_bets := 0
  win_count := 0
  lose_count := 0
  jackpot_streak := 0
  high_risk_streak := 0
  last_bet_amount := 0

/-- A neutral `bot1.py` configuration. -/
def ex1Cfg : Bot1.Config where
  base_bet := 1
  multiplier := 2
  chance := 495/10
  rule_mode := "under"
  take_profit := 1000
  stop_loss := -1000
  strategy := "martingale"
  auto_strategy_change := false
  strategy_cycle := ["martingale"]
  strategy_switch_mode := "on_win"
  loss_streak_trigger := 5
  jackpot_chance := 1
  jackpot_raise_min := 102/100
  jackpot_raise_max := 105/100
  high_risk_chance := 5
  high_risk_raise_min := 110/100
  high_risk_raise_max := 120/100
  high_risk_interval := 20

/-- A fresh `bot1.py` state as produced by `__init__` for `ex1Cfg`. -/
def ex1St : Bot1.State where
  session_profit := 0
  current_bet := 1
  loss_streak_total := 0
  loss_streak_count := 0
  current_strategy := "martingale"
  strategy_index := 0
  last_loss_amount := 1
  last_outcome := none
  override_chance := none
  fibo_seq := [1]
  total_bets := 0
  win_count := 0
  lose_count := 0

/-- A concrete admissible sampler: always returns the lower argument. -/
def uniLo : ℚ → ℚ → ℚ := fun a _ => a

theorem uniLo_ok : UniformOk uniLo :=
  fun a b => ⟨min_le_left a b, le_max_left a b⟩

/-- A losing round of amount `a` (usable response). -/
def loseInput (a : ℚ) : RoundInput :=
  { response := some { state := "lose", profit := 0, amount := a }
    coin := true
    uniform := uniLo }

/-- A winning round paying `p`, charged amount `a` (usable response). -/
def winInput (p a : ℚ) : RoundInput :=
  { response := some { state := "win", profit := p, amount := a }
    coin := true
    uniform := uniLo }

/-- A failed round: no usable response. -/
def failInput : RoundInput :=
  { response := none, coin := true, uniform := uniLo }

/-! ### Structural lemmas about the step functions -/

theorem Bot.capState_current_le {cfg : Bot.Config} (s : Bot.State)
    (h : 0 < cfg.max_bet) : (Bot.capState cfg s).current_bet ≤ cfg.max_bet := by
  unfold Bot.capState
  split_ifs with hc
  · simp
  · push_neg at hc
    exact hc h

theorem Bot.step_shape (cfg : Bot.Config) (s : Bot.State) (inp : RoundInput) :
    (∃ st, Bot.step cfg s inp = .halt st) ∨
    Bot.step cfg s inp = .retry (Bot.capState cfg s).current_bet (Bot.capState cfg s) ∨
    (∃ s1, Bot.step cfg s inp = .next (Bot.capState cfg s).current_bet s1) := by
  unfold Bot.step
  split_ifs with h1 h2
  · exact Or.inl ⟨_, rfl⟩
  · exact Or.inl ⟨_, rfl⟩
  · cases hr : inp.response with
    | none => exact Or.inr (Or.inl rfl)
    | some bet =>
      by_cases hw : bet.state = "win" <;> simp [hw]

theorem Bot.step_halts {cfg : Bot.Config} {s : Bot.State} (inp : RoundInput)
    (h : s.session_profit ≤ cfg.stop_loss ∨ s.session_profit ≥ cfg.take_profit) :
    Bot.step cfg s inp = .halt .haltedStopLoss ∨
    Bot.step cfg s inp = .halt .haltedTakeProfit := by
  unfold Bot.step
  split_ifs with h1 h2
  · exact Or.inl rfl
  · exact Or.inr rfl
  · rcases h with h | h
    · exact absurd h h1
    · exact absurd h h2

theorem Bot1.step_halts1 {cfg : Bot1.Config} {s : Bot1.State} (inp : RoundInput)
    (h : s.session_profit ≤ cfg.stop_loss ∨ s.session_profit ≥ cfg.take_profit) :
    Bot1.step cfg s inp = .halt .haltedStopLoss ∨
    Bot1.step cfg s inp = .halt .haltedTakeProfit := by
  unfold Bot1.step
  split_ifs with h1 h2
  · exact Or.inl rfl
  · exact Or.inr rfl
  · rcases h with h | h
    · exact absurd h h1
    · exact absurd h h2

/-! ### C1 — ceiling invariant -/

/-- C1: if a wager ceiling (`max_bet > 0`) is configured, every wager
submitted in any run of the `bot.py` loop is at most the ceiling: the cap
replaces an over-limit wager by the ceiling before submission.  (`bot1.py`
has no ceiling at all — the "absent ceiling" unbounded case.) -/
theorem claim1_ceiling_invariant (cfg : Bot.Config) (h : 0 < cfg.max_bet) :
    ∀ ins : List RoundInput, ∀ s : Bot.State,
      ∀ w ∈ (Bot.run cfg s ins).1, w ≤ cfg.max_bet := by
  intro ins
  induction ins with
  | nil => intro s w hw; simp [Bot.run] at hw
  | cons inp rest ih =>
    intro s w hw
    rcases Bot.step_shape cfg s inp with ⟨st, hs⟩ | hs | ⟨s1, hs⟩ <;>
      simp only [Bot.run, hs] at hw
    · simp at hw
    · rcases List.mem_cons.mp hw with rfl | hmem
      · exact Bot.capState_current_le s h
      · exact ih _ w hmem
    · rcases List.mem_cons.mp hw with rfl | hmem
      · exact Bot.capState_current_le s h
      · exact ih _ w hmem

/-- Witness for C1 at a concrete configuration and run. -/
theorem claim1_ceiling_invariant_witness :
    0 < exCfg.max_bet ∧
    ∀ w ∈ (Bot.run exCfg { exSt with current_bet := 500 } [loseInput 100]).1,
      w ≤ exCfg.max_bet :=
  ⟨by norm_num [exCfg],
    claim1_ceiling_invariant exCfg (by norm_num [exCfg]) [loseInput 100]
      { exSt with current_bet := 500 }⟩

/-! ### C2 — halt invariant -/

/-- C2: once session profit has crossed the stop-loss bound (`profit ≤
stop_loss`) or the take-profit bound (`profit ≥ take_profit`), the loop
halts before placing any wager: the remainder of the session submits no
wager and ends in a terminal halted status (both `bot.py` and `bot1.py`;
the checks run at the top of every round). -/
theorem claim2_halt_invariant (cfg : Bot.Config) (s : Bot.State)
    (ins : List RoundInput) (cfg1 : Bot1.Config) (t : Bot1.State)
    (ins1 : List RoundInput)
    (h : s.session_profit ≤ cfg.stop_loss ∨ s.session_profit ≥ cfg.take_profit)
    (h1 : t.session_profit ≤ cfg1.stop_loss ∨ t.session_profit ≥ cfg1.take_profit) :
    (Bot.run cfg s ins).1 = [] ∧ (Bot1.run cfg1 t ins1).1 = [] ∧
    (ins ≠ [] → (Bot.run cfg s ins).2 = Status.haltedStopLoss ∨
      (Bot.run cfg s ins).2 = Status.haltedTakeProfit) ∧
    (ins1 ≠ [] → (Bot1.run cfg1 t ins1).2 = Status.haltedStopLoss ∨
      (Bot1.run cfg1 t ins1).2 = Status.haltedTakeProfit) := by
  refine ⟨?_, ?_, ?_, ?_⟩
  · cases ins with
    | nil => simp [Bot.run]
    | cons inp rest =>
      rcases Bot.step_halts inp h with hs | hs <;> simp [Bot.run, hs]
  · cases ins1 with
    | nil => simp [Bot1.run]
    | cons inp rest =>
      rcases Bot1.step_halts1 inp h1 with hs | hs <;> simp [Bot1.run, hs]
  · intro hne
    cases ins with
    | nil => exact absurd rfl hne
    | cons inp rest =>
      rcases Bot.step_halts inp h with hs | hs
      · exact Or.inl (by simp [Bot.run, hs])
      · exact Or.inr (by simp [Bot.run, hs])
  · intro hne
    cases ins1 with
    | nil => exact absurd rfl hne
    | cons inp rest =>
      rcases Bot1.step_halts1 inp h1 with hs | hs
      · exact Or.inl (by simp [Bot1.run, hs])
      · exact Or.inr (by simp [Bot1.run, hs])

/-- Witness for C2: a stop-loss-crossed state submits nothing. -/
theorem claim2_halt_invariant_witness :
    ({ exSt with session_profit := -1000 } : Bot.State).session_profit ≤ exCfg.stop_loss ∧
    ({ ex1St with session_profit := 2000 } : Bot1.State).session_profit ≥ ex1Cfg.take_profit ∧
    (Bot.run exCfg { exSt with session_profit := -1000 } [loseInput 1]).1 = [] ∧
    (Bot1.run ex1Cfg { ex1St with session_profit := 2000 } [loseInput 1]).1 = [] := by
  have h : ({ exSt with session_profit := -1000 } : Bot.State).session_profit ≤
      exCfg.stop_loss := by norm_num [exCfg]
  have h1 : ({ ex1St with session_profit := 2000 } : Bot1.State).session_profit ≥
      ex1Cfg.take_profit := by norm_num [ex1Cfg]
  have := claim2_halt_invariant exCfg { exSt with session_profit := -1000 }
    [loseInput 1] ex1Cfg { ex1St with session_profit := 2000 } [loseInput 1]
    (Or.inl h) (Or.inr h1)
  exact ⟨h, h1, this.1, this.2.1⟩

/-! ### Field-preservation lemmas for the win/loss arms -/

theorem Bot.dispatchNext_streaks (cfg : Bot.Config) (win : Bool) (s : Bot.State)
    (u : ℚ → ℚ → ℚ) :
    (Bot.dispatchNext cfg win s u).loss_streak_count = s.loss_streak_count ∧
    (Bot.dispatchNext cfg win s u).loss_streak_total = s.loss_streak_total := by
  unfold Bot.dispatchNext Bot.strat_fibonacci Bot.strat_jackpot_hunter
    Bot.strat_high_risk_pulse
  split_ifs <;> simp

theorem Bot.switchStrategy_streaks (cfg : Bot.Config) (s : Bot.State) :
    (Bot.switchStrategy cfg s).loss_streak_count = s.loss_streak_count ∧
    (Bot.switchStrategy cfg s).loss_streak_total = s.loss_streak_total := by
  unfold Bot.switchStrategy
  simp

theorem Bot.step_win_eq (cfg : Bot.Config) (s : Bot.State) (inp : RoundInput)
    (bet : BetResult) (hr : inp.response = some bet)
    (hsl : ¬ s.session_profit ≤ cfg.stop_loss)
    (htp : ¬ s.session_profit ≥ cfg.take_profit) (hw : bet.state = "win") :
    Bot.step cfg s inp = .next (Bot.capState cfg s).current_bet
      (Bot.winUpdate cfg (Bot.recordRound (Bot.capState cfg s) bet) inp bet) := by
  unfold Bot.step
  rw [if_neg hsl, if_neg htp, hr]
  simp [hw]

theorem Bot.step_lose_eq (cfg : Bot.Config) (s : Bot.State) (inp : RoundInput)
    (bet : BetResult) (hr : inp.response = some bet)
    (hsl : ¬ s.session_profit ≤ cfg.stop_loss)
    (htp : ¬ s.session_profit ≥ cfg.take_profit) (hw : bet.state ≠ "win") :
    Bot.step cfg s inp = .next (Bot.capState cfg s).current_bet
      (Bot.lossUpdate cfg (Bot.recordRound (Bot.capState cfg s) bet) inp bet) := by
  unfold Bot.step
  rw [if_neg hsl, if_neg htp, hr]
  simp [hw]

theorem Bot1.step_win_eq1 (cfg : Bot1.Config) (s : Bot1.State) (inp : RoundInput)
    (bet : BetResult) (hr : inp.response = some bet)
    (hsl : ¬ s.session_profit ≤ cfg.stop_loss)
    (htp : ¬ s.session_profit ≥ cfg.take_profit) (hw : bet.state = "win") :
    Bot1.step cfg s inp = .next s.current_bet
      (Bot1.winUpdate cfg (Bot1.recordRound s bet) inp bet) := by
  unfold Bot1.step
  rw [if_neg hsl, if_neg htp, hr]
  simp [hw]

theorem Bot1.step_lose_eq1 (cfg : Bot1.Config) (s : Bot1.State) (inp : RoundInput)
    (bet : BetResult) (hr : inp.response = some bet)
    (hsl : ¬ s.session_profit ≤ cfg.stop_loss)
    (htp : ¬ s.session_profit ≥ cfg.take_profit) (hw : bet.state ≠ "win") :
    Bot1.step cfg s inp = .next s.current_bet
      (Bot1.lossUpdate cfg (Bot1.recordRound s bet) inp bet) := by
  unfold Bot1.step
  rw [if_neg hsl, if_neg htp, hr]
  simp [hw]

theorem Bot.winUpdate_streaks (cfg : Bot.Config) (s : Bot.State) (inp : RoundInput)
    (bet : BetResult) :
    (Bot.winUpdate cfg s inp bet).loss_streak_count = 0 ∧
    (Bot.winUpdate cfg s inp bet).loss_streak_total = 0 := by
  have hd := Bot.dispatchNext_streaks cfg true (Bot.winLedger s bet) inp.uniform
  have hs := Bot.switchStrategy_streaks cfg
    (Bot.dispatchNext cfg true (Bot.winLedger s bet) inp.uniform)
  have hc : (Bot.winLedger s bet).loss_streak_count = 0 := rfl
  have ht : (Bot.winLedger s bet).loss_streak_total = 0 := rfl
  simp only [Bot.winUpdate]
  split_ifs with h
  · exact ⟨hs.1.trans (hd.1.trans hc), hs.2.trans (hd.2.trans ht)⟩
  · exact ⟨hd.1.trans hc, hd.2.trans ht⟩

theorem Bot.lossUpdate_streaks (cfg : Bot.Config) (s : Bot.State) (inp : RoundInput)
    (bet : BetResult) :
    (Bot.lossUpdate cfg s inp bet).loss_streak_total =
      s.loss_streak_total + bet.amount ∧
    (Bot.lossUpdate cfg s inp bet).loss_streak_count =
      (if cfg.auto_strategy_change = true ∧ cfg.strategy_switch_mode = "on_loss_streak" ∧
          cfg.strategy_cycle ≠ [] ∧ cfg.loss_streak_trigger ≤ s.loss_streak_count + 1
        then 0 else s.loss_streak_count + 1) := by
  have hd := Bot.dispatchNext_streaks cfg false (Bot.lossLedger s bet) inp.uniform
  have hs := Bot.switchStrategy_streaks cfg
    (Bot.dispatchNext cfg false (Bot.lossLedger s bet) inp.uniform)
  have hdc : (Bot.dispatchNext cfg false (Bot.lossLedger s bet)
      inp.uniform).loss_streak_count = s.loss_streak_count + 1 := hd.1.trans rfl
  have hdt : (Bot.dispatchNext cfg false (Bot.lossLedger s bet)
      inp.uniform).loss_streak_total = s.loss_streak_total + bet.amount := hd.2.trans rfl
  simp only [Bot.lossUpdate, hdc]
  by_cases hout : cfg.auto_strategy_change = true ∧
      cfg.strategy_switch_mode = "on_loss_streak" ∧ cfg.strategy_cycle ≠ []
  · by_cases hin : s.loss_streak_count + 1 ≥ cfg.loss_streak_trigger
    · rw [if_pos hout, if_pos hin, if_pos ⟨hout.1, hout.2.1, hout.2.2, hin⟩]
      exact ⟨by simp [hs.2, hdt], by simp⟩
    · rw [if_pos hout, if_neg hin, if_neg (fun hc => hin hc.2.2.2)]
      exact ⟨hdt, hdc⟩
  · rw [if_neg hout, if_neg (fun hc => hout ⟨hc.1, hc.2.1, hc.2.2.1⟩)]
    exact ⟨hdt, hdc⟩

/-! ### C3 — streak-reset invariant (corrected) -/

/-- Counterexample to C3 as stated: with auto strategy switching in
`on_loss_streak` mode and trigger 1, the round that fires the switch is a
*losing* round after which `loss_streak_count` is 0, not strictly
positive (`bot.py`, loss arm: the switch resets the counter). -/
theorem claim3_streak_reset_counterexample :
    (Bot.stateAfter
      { exCfg with auto_strategy_change := true
                   strategy_switch_mode := "on_loss_streak"
                   loss_streak_trigger := 1 }
      exSt (loseInput 1)).lose_count = 1 ∧
    (Bot.stateAfter
      { exCfg with auto_strategy_change := true
                   strategy_switch_mode := "on_loss_streak"
                   loss_streak_trigger := 1 }
      exSt (loseInput 1)).loss_streak_count = 0 := by
  have hlw : ("lose" : String) ≠ "win" := by decide
  norm_num [Bot.stateAfter, Bot.step, Bot.capState, Bot.recordRound, Bot.lossUpdate,
    Bot.lossLedger, Bot.dispatchNext, Bot.strat_martingale, Bot.switchStrategy,
    Bot.get_starting_bet_for_strategy, exCfg, exSt, loseInput, hlw]

/-- C3 amended: immediately after a winning round both the consecutive-loss
counter and the cumulative-loss-in-streak are 0; immediately after a losing
round the cumulative loss is strictly positive, and the counter equals the
previous counter plus one (hence strictly positive) *unless* the
`on_loss_streak` strategy switch fires in that same round, in which case
the counter (but not the cumulative loss) is reset to 0 (`bot.py`). -/
theorem claim3_streak_reset_amended (cfg : Bot.Config) (s : Bot.State)
    (inp : RoundInput) (bet : BetResult) (hr : inp.response = some bet)
    (hsl : ¬ s.session_profit ≤ cfg.stop_loss)
    (htp : ¬ s.session_profit ≥ cfg.take_profit) :
    (bet.state = "win" →
      (Bot.stateAfter cfg s inp).loss_streak_count = 0 ∧
      (Bot.stateAfter cfg s inp).loss_streak_total = 0) ∧
    (bet.state ≠ "win" → 0 ≤ s.loss_streak_total → 0 < bet.amount →
      0 < (Bot.stateAfter cfg s inp).loss_streak_total ∧
      (Bot.stateAfter cfg s inp).loss_streak_count =
        (if cfg.auto_strategy_change = true ∧
            cfg.strategy_switch_mode = "on_loss_streak" ∧ cfg.strategy_cycle ≠ [] ∧
            cfg.loss_streak_trigger ≤ s.loss_streak_count + 1
          then 0 else s.loss_streak_count + 1)) := by
  constructor
  · intro hw
    have hstep := Bot.step_win_eq cfg s inp bet hr hsl htp hw
    have := Bot.winUpdate_streaks cfg (Bot.recordRound (Bot.capState cfg s) bet) inp bet
    rw [Bot.stateAfter, hstep]
    exact this
  · intro hw hnn hpos
    have hstep := Bot.step_lose_eq cfg s inp bet hr hsl htp hw
    have hls := Bot.lossUpdate_streaks cfg (Bot.recordRound (Bot.capState cfg s) bet) inp bet
    have hrec_t : (Bot.recordRound (Bot.capState cfg s) bet).loss_streak_total =
        s.loss_streak_total := by
      simp [Bot.recordRound, Bot.capState]
      split_ifs <;> rfl
    have hrec_c : (Bot.recordRound (Bot.capState cfg s) bet).loss_streak_count =
        s.loss_streak_count := by
      simp [Bot.recordRound, Bot.capState]
      split_ifs <;> rfl
    rw [Bot.stateAfter, hstep]
    refine ⟨?_, ?_⟩
    · rw [hls.1, hrec_t]
      linarith
    · rw [hls.2, hrec_c]

/-- Witness for the amended C3 at a concrete winning and losing round. -/
theorem claim3_streak_reset_amended_witness :
    ((loseInput 1).response = some { state := "lose", profit := 0, amount := 1 } ∧
      ¬ exSt.session_profit ≤ exCfg.stop_loss ∧
      ¬ exSt.session_profit ≥ exCfg.take_profit) ∧
    (0 < (Bot.stateAfter exCfg exSt (loseInput 1)).loss_streak_total ∧
      (Bot.stateAfter exCfg exSt (loseInput 1)).loss_streak_count = 1) := by
  have h1 : (loseInput 1).response = some { state := "lose", profit := 0, amount := 1 } := rfl
  have h2 : ¬ exSt.session_profit ≤ exCfg.stop_loss := by norm_num [exSt, exCfg]
  have h3 : ¬ exSt.session_profit ≥ exCfg.take_profit := by norm_num [exSt, exCfg]
  have hmain := (claim3_streak_reset_amended exCfg exSt (loseInput 1)
    { state := "lose", profit := 0, amount := 1 } h1 h2 h3).2
    (by simp) (by norm_num [exSt]) (by norm_num)
  refine ⟨⟨h1, h2, h3⟩, hmain.1, ?_⟩
  rw [hmain.2]
  norm_num [exCfg, exSt]

/-! ### C4 — martingale invariant (corrected) -/

theorem Bot.record_cap_strategy (cfg : Bot.Config) (s : Bot.State) (bet : BetResult) :
    (Bot.recordRound (Bot.capState cfg s) bet).current_strategy = s.current_strategy := by
  unfold Bot.recordRound Bot.capState
  split_ifs <;> rfl

theorem Bot.record_cap_count (cfg : Bot.Config) (s : Bot.State) (bet : BetResult) :
    (Bot.recordRound (Bot.capState cfg s) bet).loss_streak_count = s.loss_streak_count := by
  unfold Bot.recordRound Bot.capState
  split_ifs <;> rfl

theorem Bot.record_cap_bet (cfg : Bot.Config) (s : Bot.State) (bet : BetResult) :
    (Bot.recordRound (Bot.capState cfg s) bet).current_bet =
      (Bot.capState cfg s).current_bet := rfl

theorem Bot.winUpdate_martingale (cfg : Bot.Config) (s : Bot.State) (inp : RoundInput)
    (bet : BetResult) (hstrat : s.current_strategy = "martingale")
    (hns : ¬ (cfg.auto_strategy_change = true ∧ cfg.strategy_switch_mode = "on_win" ∧
      cfg.strategy_cycle ≠ [])) :
    (Bot.winUpdate cfg s inp bet).current_bet = cfg.base_bet := by
  simp only [Bot.winUpdate, if_neg hns]
  simp [Bot.dispatchNext, Bot.winLedger, hstrat, Bot.strat_martingale]

theorem Bot.lossUpdate_martingale (cfg : Bot.Config) (s : Bot.State) (inp : RoundInput)
    (bet : BetResult) (hstrat : s.current_strategy = "martingale")
    (hns : ¬ (cfg.auto_strategy_change = true ∧
      cfg.strategy_switch_mode = "on_loss_streak" ∧ cfg.strategy_cycle ≠ [] ∧
      cfg.loss_streak_trigger ≤ s.loss_streak_count + 1)) :
    (Bot.lossUpdate cfg s inp bet).current_bet =
      round8 (s.current_bet * cfg.multiplier) := by
  have hd := Bot.dispatchNext_streaks cfg false (Bot.lossLedger s bet) inp.uniform
  have hbet : (Bot.dispatchNext cfg false (Bot.lossLedger s bet)
      inp.uniform).current_bet = round8 (s.current_bet * cfg.multiplier) := by
    simp [Bot.dispatchNext, Bot.lossLedger, hstrat, Bot.strat_martingale]
  simp only [Bot.lossUpdate]
  by_cases hout : cfg.auto_strategy_change = true ∧
      cfg.strategy_switch_mode = "on_loss_streak" ∧ cfg.strategy_cycle ≠ []
  · have hin : ¬ ((Bot.dispatchNext cfg false (Bot.lossLedger s bet)
        inp.uniform).loss_streak_count ≥ cfg.loss_streak_trigger) := by
      rw [hd.1]
      have hl : (Bot.lossLedger s bet).loss_streak_count = s.loss_streak_count + 1 := rfl
      rw [hl]
      intro hc
      exact hns ⟨hout.1, hout.2.1, hout.2.2, hc⟩
    rw [if_pos hout, if_neg hin]
    exact hbet
  · rw [if_neg hout]
    exact hbet

theorem Bot1.winUpdate_martingale1 (cfg : Bot1.Config) (t : Bot1.State)
    (inp : RoundInput) (bet : BetResult)
    (hstrat : t.current_strategy = "martingale") :
    (Bot1.winUpdate cfg t inp bet).current_bet = cfg.base_bet := by
  simp only [Bot1.winUpdate]
  split_ifs with h
  · simp [Bot1.switchStrategy, Bot1.dispatchNext, Bot1.winLedger, hstrat,
      Bot1.strat_martingale]
  · simp [Bot1.dispatchNext, Bot1.winLedger, hstrat, Bot1.strat_martingale]

theorem Bot1.lossUpdate_martingale1 (cfg : Bot1.Config) (t : Bot1.State)
    (inp : RoundInput) (bet : BetResult)
    (hstrat : t.current_strategy = "martingale") :
    (Bot1.lossUpdate cfg t inp bet).current_bet =
      round8 (if round8 (t.current_bet * cfg.multiplier) <
          |t.loss_streak_total + bet.amount| + cfg.base_bet
        then |t.loss_streak_total + bet.amount| + cfg.base_bet
        else round8 (t.current_bet * cfg.multiplier)) := by
  have hdisp : Bot1.dispatchNext cfg false (Bot1.lossLedger t bet) inp.uniform =
      (round8 (t.current_bet * cfg.multiplier), Bot1.lossLedger t bet) := by
    simp [Bot1.dispatchNext, Bot1.lossLedger, hstrat, Bot1.strat_martingale]
  simp only [Bot1.lossUpdate, hdisp]
  have hlt : (Bot1.lossLedger t bet).loss_streak_total =
      t.loss_streak_total + bet.amount := rfl
  split_ifs <;>
    simp_all [Bot1.switchStrategy, Bot1.lossLedger]

/-- Counterexample to C4 as stated: in `bot1.py` with multiplier 1.5, after a
losing round of amount 1 from a fresh martingale state the next wager is
forced up to the cover-loss floor 2, not `last_wager × multiplier = 1.5`. -/
theorem claim4_martingale_counterexample :
    (Bot1.stateAfter { ex1Cfg with multiplier := 3/2 } ex1St (loseInput 1)).lose_count = 1 ∧
    (Bot1.stateAfter { ex1Cfg with multiplier := 3/2 } ex1St (loseInput 1)).current_bet = 2 ∧
    (2 : ℚ) ≠ ex1St.current_bet * (3/2) := by
  have hlw : ("lose" : String) ≠ "win" := by decide
  refine ⟨?_, ?_, by norm_num [ex1St]⟩ <;>
    norm_num [Bot1.stateAfter, Bot1.step, Bot1.recordRound, Bot1.lossUpdate,
      Bot1.lossLedger, Bot1.dispatchNext, Bot1.strat_martingale, ex1Cfg, ex1St,
      loseInput, hlw, round8, round_eq]

/-- C4 amended: under the martingale strategy, in `bot.py` a losing round
sets the next wager to `round8(submitted_wager × multiplier)` and a winning
round resets it to the base wager, provided no auto strategy switch fires
that round (a switch reseeds the wager); in `bot1.py` a winning round
resets to the base wager, but a losing round's next wager is the
strategy's `round8(last_wager × multiplier)` raised to the cover-loss
floor (cumulative streak loss + base wager) when below it. -/
theorem claim4_martingale_amended
    (cfg : Bot.Config) (s : Bot.State) (inp : RoundInput) (bet : BetResult)
    (hr : inp.response = some bet)
    (hsl : ¬ s.session_profit ≤ cfg.stop_loss)
    (htp : ¬ s.session_profit ≥ cfg.take_profit)
    (hstrat : s.current_strategy = "martingale")
    (cfg1 : Bot1.Config) (t : Bot1.State) (inp1 : RoundInput) (bet1 : BetResult)
    (hr1 : inp1.response = some bet1)
    (hsl1 : ¬ t.session_profit ≤ cfg1.stop_loss)
    (htp1 : ¬ t.session_profit ≥ cfg1.take_profit)
    (hstrat1 : t.current_strategy = "martingale") :
    (bet.state = "win" →
      ¬ (cfg.auto_strategy_change = true ∧ cfg.strategy_switch_mode = "on_win" ∧
        cfg.strategy_cycle ≠ []) →
      (Bot.stateAfter cfg s inp).current_bet = cfg.base_bet) ∧
    (bet.state ≠ "win" →
      ¬ (cfg.auto_strategy_change = true ∧
        cfg.strategy_switch_mode = "on_loss_streak" ∧ cfg.strategy_cycle ≠ [] ∧
        cfg.loss_streak_trigger ≤ s.loss_streak_count + 1) →
      (Bot.stateAfter cfg s inp).current_bet =
        round8 ((Bot.capState cfg s).current_bet * cfg.multiplier)) ∧
    (bet1.state = "win" →
      (Bot1.stateAfter cfg1 t inp1).current_bet = cfg1.base_bet) ∧
    (bet1.state ≠ "win" →
      (Bot1.stateAfter cfg1 t inp1).current_bet =
        round8 (if round8 (t.current_bet * cfg1.multiplier) <
            |t.loss_streak_total + bet1.amount| + cfg1.base_bet
          then |t.loss_streak_total + bet1.amount| + cfg1.base_bet
          else round8 (t.current_bet * cfg1.multiplier))) := by
  refine ⟨?_, ?_, ?_, ?_⟩
  · intro hw hns
    rw [Bot.stateAfter, Bot.step_win_eq cfg s inp bet hr hsl htp hw]
    exact Bot.winUpdate_martingale cfg _ inp bet
      ((Bot.record_cap_strategy cfg s bet).trans hstrat) hns
  · intro hw hns
    rw [Bot.stateAfter, Bot.step_lose_eq cfg s inp bet hr hsl htp hw]
    have := Bot.lossUpdate_martingale cfg (Bot.recordRound (Bot.capState cfg s) bet)
      inp bet ((Bot.record_cap_strategy cfg s bet).trans hstrat)
      (by rw [Bot.record_cap_count]; exact hns)
    rw [this, Bot.record_cap_bet]
  · intro hw
    rw [Bot1.stateAfter, Bot1.step_win_eq1 cfg1 t inp1 bet1 hr1 hsl1 htp1 hw]
    exact Bot1.winUpdate_martingale1 cfg1 _ inp1 bet1 hstrat1
  · intro hw
    rw [Bot1.stateAfter, Bot1.step_lose_eq1 cfg1 t inp1 bet1 hr1 hsl1 htp1 hw]
    exact Bot1.lossUpdate_martingale1 cfg1 (Bot1.recordRound t bet1) inp1 bet1 hstrat1

/-- Witness for the amended C4: a winning `bot.py` round resets to base; a
losing `bot1.py` round applies the cover-loss-floored martingale raise. -/
theorem claim4_martingale_amended_witness :
    ((winInput 1 1).response = some { state := "win", profit := 1, amount := 1 } ∧
      ¬ exSt.session_profit ≤ exCfg.stop_loss ∧
      ¬ exSt.session_profit ≥ exCfg.take_profit ∧
      exSt.current_strategy = "martingale" ∧
      (loseInput 1).response = some { state := "lose", profit := 0, amount := 1 } ∧
      ¬ ex1St.session_profit ≤ ex1Cfg.stop_loss ∧
      ¬ ex1St.session_profit ≥ ex1Cfg.take_profit ∧
      ex1St.current_strategy = "martingale") ∧
    (Bot.stateAfter exCfg exSt (winInput 1 1)).current_bet = exCfg.base_bet ∧
    (Bot1.stateAfter ex1Cfg ex1St (loseInput 1)).current_bet =
      round8 (if round8 (ex1St.current_bet * ex1Cfg.multiplier) <
          |ex1St.loss_streak_total + (1 : ℚ)| + ex1Cfg.base_bet
        then |ex1St.loss_streak_total + (1 : ℚ)| + ex1Cfg.base_bet
        else round8 (ex1St.current_bet * ex1Cfg.multiplier)) := by
  have h2 : ¬ exSt.session_profit ≤ exCfg.stop_loss := by norm_num [exSt, exCfg]
  have h3 : ¬ exSt.session_profit ≥ exCfg.take_profit := by norm_num [exSt, exCfg]
  have h6 : ¬ ex1St.session_profit ≤ ex1Cfg.stop_loss := by norm_num [ex1St, ex1Cfg]
  have h7 : ¬ ex1St.session_profit ≥ ex1Cfg.take_profit := by norm_num [ex1St, ex1Cfg]
  have hmain := claim4_martingale_amended exCfg exSt (winInput 1 1)
    { state := "win", profit := 1, amount := 1 } rfl h2 h3 rfl
    ex1Cfg ex1St (loseInput 1) { state := "lose", profit := 0, amount := 1 }
    rfl h6 h7 rfl
  refine ⟨⟨rfl, h2, h3, rfl, rfl, h6, h7, rfl⟩, ?_, ?_⟩
  · exact hmain.1 rfl (by simp [exCfg])
  · exact hmain.2.2.2 (by decide)

/-! ### C5 — fibonacci invariant -/

theorem Grid8.mulNat {a : ℚ} (ha : Grid8 a) (n : ℕ) : Grid8 (a * (n : ℚ)) := by
  rw [mul_comm]
  exact ha.natMul n

theorem fiboAdvance_iterate (b : ℚ) (k : ℕ) :
    (Bot.fiboAdvance b)^[k] [b] =
      (List.range (k + 1)).map (fun i => b * (Nat.fib (i + 1) : ℚ)) := by
  induction k with
  | zero => simp [List.range_succ, Nat.fib_one]
  | succ k ih =>
    rw [Function.iterate_succ_apply', ih]
    unfold Bot.fiboAdvance
    cases k with
    | zero => simp [List.range_succ, Nat.fib_one, Nat.fib_two]
    | succ m =>
      rw [if_neg (by simp)]
      have hfib : (Nat.fib (m + 3) : ℚ) = Nat.fib (m + 1) + Nat.fib (m + 2) := by
        rw [show m + 3 = (m + 1) + 2 from rfl, Nat.fib_add_two]
        push_cast
        ring
      simp only [List.range_succ, List.map_append, List.map_cons, List.map_nil]
      simp [hfib]
      ring

/-- State reached from `s` by `k` consecutive losing calls of
`strat_fibonacci` (`bot.py`). -/
def Bot.fiboLossState (cfg : Bot.Config) (s : Bot.State) : ℕ → Bot.State
  | 0 => s
  | k + 1 => (Bot.strat_fibonacci cfg false (Bot.fiboLossState cfg s k)).2

/-- The wager the fibonacci strategy places at position `n ≥ 1` of a loss
streak that starts right after a win: position 1 is the wager returned by
the winning call, position `n + 1` the wager returned by the `n`-th
subsequent losing call. -/
def Bot.fiboStreakWager (cfg : Bot.Config) (s : Bot.State) : ℕ → ℚ
  | 0 => 0
  | 1 => (Bot.strat_fibonacci cfg true s).1
  | k + 2 => (Bot.strat_fibonacci cfg false
      (Bot.fiboLossState cfg (Bot.strat_fibonacci cfg true s).2 k)).1

theorem Bot.fiboLossState_seq (cfg : Bot.Config) (s0 : Bot.State) (k : ℕ) :
    (Bot.fiboLossState cfg s0 k).fibo_seq =
      (Bot.fiboAdvance cfg.base_bet)^[k] s0.fibo_seq := by
  induction k with
  | zero => rfl
  | succ k ih =>
    rw [Bot.fiboLossState, Function.iterate_succ_apply']
    simp [Bot.strat_fibonacci, ih]

theorem List.getLastD_map_range (f : ℕ → ℚ) (n : ℕ) :
    ((List.range (n + 1)).map f).getLastD 0 = f n := by
  rw [List.range_succ, List.map_append]
  simp

/-- C5: starting from a win, the fibonacci strategy's wagers along an
unbroken loss streak are `base_bet × Fib(n)` for `n = 1, 2, 3, …` with
`Fib 1 = Fib 2 = 1` (for a base wager on the 8-digit wager grid; the
underlying sequence grows by the sum of its previous two terms and a win
resets it to its seed). -/
theorem claim5_fibonacci_invariant (cfg : Bot.Config) (s : Bot.State)
    (hb : Grid8 cfg.base_bet) :
    ∀ n : ℕ, 1 ≤ n →
      Bot.fiboStreakWager cfg s n = cfg.base_bet * (Nat.fib n : ℚ) := by
  intro n hn
  match n, hn with
  | 1, _ =>
    simp [Bot.fiboStreakWager, Bot.strat_fibonacci, Nat.fib_one]
  | (k + 2), _ =>
    have hwinseq : (Bot.strat_fibonacci cfg true s).2.fibo_seq = [cfg.base_bet] := by
      simp [Bot.strat_fibonacci]
    have hseq : (Bot.fiboLossState cfg (Bot.strat_fibonacci cfg true s).2 k).fibo_seq =
        (Bot.fiboAdvance cfg.base_bet)^[k] [cfg.base_bet] := by
      rw [Bot.fiboLossState_seq, hwinseq]
    rw [Bot.fiboStreakWager, Bot.strat_fibonacci]
    rw [if_neg (by simp)]
    simp only [hseq]
    rw [show Bot.fiboAdvance cfg.base_bet
        ((Bot.fiboAdvance cfg.base_bet)^[k] [cfg.base_bet]) =
        (Bot.fiboAdvance cfg.base_bet)^[k + 1] [cfg.base_bet] from
      (Function.iterate_succ_apply' _ _ _).symm]
    rw [fiboAdvance_iterate, List.getLastD_map_range]
    exact Grid8.round8_eq (hb.mulNat _)

/-- Witness for C5 at base wager 1 and streak position 4 (wager `Fib 4 = 3`). -/
theorem claim5_fibonacci_invariant_witness :
    Grid8 exCfg.base_bet ∧ 1 ≤ 4 ∧
    Bot.fiboStreakWager exCfg exSt 4 = exCfg.base_bet * (Nat.fib 4 : ℚ) :=
  ⟨⟨100000000, by norm_num [exCfg]⟩, by norm_num,
    claim5_fibonacci_invariant exCfg exSt ⟨100000000, by norm_num [exCfg]⟩ 4
      (by norm_num)⟩

/-! ### C6 — transient submission failure -/

theorem Bot.capState_preserves (cfg : Bot.Config) (s : Bot.State) :
    (Bot.capState cfg s).session_profit = s.session_profit ∧
    (Bot.capState cfg s).total_bets = s.total_bets ∧
    (Bot.capState cfg s).win_count = s.win_count ∧
    (Bot.capState cfg s).lose_count = s.lose_count ∧
    (Bot.capState cfg s).loss_streak_count = s.loss_streak_count ∧
    (Bot.capState cfg s).loss_streak_total = s.loss_streak_total ∧
    (Bot.capState cfg s).last_loss_amount = s.last_loss_amount ∧
    (Bot.capState cfg s).last_outcome = s.last_outcome ∧
    (Bot.capState cfg s).fibo_seq = s.fibo_seq ∧
    (Bot.capState cfg s).jackpot_streak = s.jackpot_streak ∧
    (Bot.capState cfg s).high_risk_streak = s.high_risk_streak ∧
    (Bot.capState cfg s).last_bet_amount = s.last_bet_amount ∧
    (Bot.capState cfg s).current_strategy = s.current_strategy ∧
    (Bot.capState cfg s).strategy_index = s.strategy_index := by
  unfold Bot.capState
  split_ifs <;> simp

theorem Bot.step_fail_eq (cfg : Bot.Config) (s : Bot.State) (inp : RoundInput)
    (hsl : ¬ s.session_profit ≤ cfg.stop_loss)
    (htp : ¬ s.session_profit ≥ cfg.take_profit) (hr : inp.response = none) :
    Bot.step cfg s inp =
      .retry (Bot.capState cfg s).current_bet (Bot.capState cfg s) := by
  unfold Bot.step
  rw [if_neg hsl, if_neg htp, hr]

theorem Bot1.step_fail_eq1 (cfg : Bot1.Config) (t : Bot1.State) (inp : RoundInput)
    (hsl : ¬ t.session_profit ≤ cfg.stop_loss)
    (htp : ¬ t.session_profit ≥ cfg.take_profit) (hr : inp.response = none) :
    Bot1.step cfg t inp = .retry t.current_bet t := by
  unfold Bot1.step
  rw [if_neg hsl, if_neg htp, hr]

/-- C6: when the bet placement yields no usable result, the round is not
counted and the session state is exactly the state as of the attempt: in
`bot.py` the retry state is the capped state itself — profit, all counts,
streaks, strategy memory, last-outcome fields and the (capped) wager that
was submitted are unchanged — and the loop continues with the remaining
rounds from the top; in `bot1.py` the state is unchanged verbatim. -/
theorem claim6_failure_retry (cfg : Bot.Config) (s : Bot.State) (inp : RoundInput)
    (ins : List RoundInput)
    (hsl : ¬ s.session_profit ≤ cfg.stop_loss)
    (htp : ¬ s.session_profit ≥ cfg.take_profit)
    (hr : inp.response = none)
    (cfg1 : Bot1.Config) (t : Bot1.State) (inp1 : RoundInput)
    (ins1 : List RoundInput)
    (hsl1 : ¬ t.session_profit ≤ cfg1.stop_loss)
    (htp1 : ¬ t.session_profit ≥ cfg1.take_profit)
    (hr1 : inp1.response = none) :
    Bot.step cfg s inp =
      .retry (Bot.capState cfg s).current_bet (Bot.capState cfg s) ∧
    ((Bot.capState cfg s).session_profit = s.session_profit ∧
      (Bot.capState cfg s).total_bets = s.total_bets ∧
      (Bot.capState cfg s).win_count = s.win_count ∧
      (Bot.capState cfg s).lose_count = s.lose_count ∧
      (Bot.capState cfg s).loss_streak_count = s.loss_streak_count ∧
      (Bot.capState cfg s).loss_streak_total = s.loss_streak_total ∧
      (Bot.capState cfg s).last_loss_amount = s.last_loss_amount ∧
      (Bot.capState cfg s).last_outcome = s.last_outcome ∧
      (Bot.capState cfg s).fibo_seq = s.fibo_seq ∧
      (Bot.capState cfg s).jackpot_streak = s.jackpot_streak ∧
      (Bot.capState cfg s).high_risk_streak = s.high_risk_streak ∧
      (Bot.capState cfg s).last_bet_amount = s.last_bet_amount ∧
      (Bot.capState cfg s).current_strategy = s.current_strategy ∧
      (Bot.capState cfg s).strategy_index = s.strategy_index) ∧
    Bot.run cfg s (inp :: ins) =
      ((Bot.capState cfg s).current_bet :: (Bot.run cfg (Bot.capState cfg s) ins).1,
        (Bot.run cfg (Bot.capState cfg s) ins).2) ∧
    Bot1.step cfg1 t inp1 = .retry t.current_bet t ∧
    Bot1.run cfg1 t (inp1 :: ins1) =
      (t.current_bet :: (Bot1.run cfg1 t ins1).1, (Bot1.run cfg1 t ins1).2) := by
  have hstep := Bot.step_fail_eq cfg s inp hsl htp hr
  have hstep1 := Bot1.step_fail_eq1 cfg1 t inp1 hsl1 htp1 hr1
  refine ⟨hstep, Bot.capState_preserves cfg s, ?_, hstep1, ?_⟩
  · simp [Bot.run, hstep]
  · simp [Bot1.run, hstep1]

/-- Witness for C6 at a concrete failed round. -/
theorem claim6_failure_retry_witness :
    (¬ exSt.session_profit ≤ exCfg.stop_loss ∧
      ¬ exSt.session_profit ≥ exCfg.take_profit ∧ failInput.response = none ∧
      ¬ ex1St.session_profit ≤ ex1Cfg.stop_loss ∧
      ¬ ex1St.session_profit ≥ ex1Cfg.take_profit) ∧
    Bot.step exCfg exSt failInput =
      .retry (Bot.capState exCfg exSt).current_bet (Bot.capState exCfg exSt) ∧
    Bot1.step ex1Cfg ex1St failInput = .retry ex1St.current_bet ex1St := by
  have h1 : ¬ exSt.session_profit ≤ exCfg.stop_loss := by norm_num [exSt, exCfg]
  have h2 : ¬ exSt.session_profit ≥ exCfg.take_profit := by norm_num [exSt, exCfg]
  have h3 : ¬ ex1St.session_profit ≤ ex1Cfg.stop_loss := by norm_num [ex1St, ex1Cfg]
  have h4 : ¬ ex1St.session_profit ≥ ex1Cfg.take_profit := by norm_num [ex1St, ex1Cfg]
  have hmain := claim6_failure_retry exCfg exSt failInput [] h1 h2 rfl
    ex1Cfg ex1St failInput [] h3 h4 rfl
  exact ⟨⟨h1, h2, rfl, h3, h4⟩, hmain.1, hmain.2.2.2.1⟩

/-! ### C7 — session reset (corrected) -/

/-- Counterexample to C7 as stated: at session start `bot.py` does not
reset `fibo_seq` nor `jackpot_streak` (nor `high_risk_streak`), and
`bot1.py` does not reset `fibo_seq` — strategy memory crosses the
stop-loss/take-profit boundary. -/
theorem claim7_session_reset_counterexample :
    (Bot.sessionInit exCfg
      { exSt with fibo_seq := [1, 1, 2], jackpot_streak := 3 }).fibo_seq =
      [1, 1, 2] ∧
    ([1, 1, 2] : List ℚ) ≠ [exCfg.base_bet] ∧
    (Bot.sessionInit exCfg
      { exSt with fibo_seq := [1, 1, 2], jackpot_streak := 3 }).jackpot_streak = 3 ∧
    (Bot1.sessionInit ex1Cfg { ex1St with fibo_seq := [1, 1, 2] }).fibo_seq =
      [1, 1, 2] := by
  refine ⟨rfl, by simp [exCfg], rfl, ?_⟩
  simp [Bot1.sessionInit, ex1Cfg, ex1St]

/-- C7 amended: at session start `bot.py` resets profit, streak counters,
loss amounts, outcome and the round counters (and recomputes the starting
wager from the *previous* session's last bet amount before clearing it),
while `fibo_seq`, `jackpot_streak`, `high_risk_streak`, the active strategy
and its cycle index persist across the session boundary; `bot1.py`
additionally resets the wager, the active strategy and its index, but its
`fibo_seq` also persists. -/
theorem claim7_session_reset_amended (cfg : Bot.Config) (s : Bot.State)
    (cfg1 : Bot1.Config) (t : Bot1.State) :
    (Bot.sessionInit cfg s).session_profit = 0 ∧
    (Bot.sessionInit cfg s).loss_streak_total = 0 ∧
    (Bot.sessionInit cfg s).loss_streak_count = 0 ∧
    (Bot.sessionInit cfg s).last_loss_amount = 0 ∧
    (Bot.sessionInit cfg s).last_outcome = none ∧
    (Bot.sessionInit cfg s).total_bets = 0 ∧
    (Bot.sessionInit cfg s).win_count = 0 ∧
    (Bot.sessionInit cfg s).lose_count = 0 ∧
    (Bot.sessionInit cfg s).last_bet_amount = 0 ∧
    (Bot.sessionInit cfg s).fibo_seq = s.fibo_seq ∧
    (Bot.sessionInit cfg s).jackpot_streak = s.jackpot_streak ∧
    (Bot.sessionInit cfg s).high_risk_streak = s.high_risk_streak ∧
    (Bot.sessionInit cfg s).current_strategy = s.current_strategy ∧
    (Bot.sessionInit cfg s).strategy_index = s.strategy_index ∧
    (Bot.sessionInit cfg s).current_bet =
      Bot.get_starting_bet_for_strategy cfg s s.current_strategy ∧
    (Bot1.sessionInit cfg1 t).session_profit = 0 ∧
    (Bot1.sessionInit cfg1 t).current_bet = cfg1.base_bet ∧
    (Bot1.sessionInit cfg1 t).loss_streak_total = 0 ∧
    (Bot1.sessionInit cfg1 t).loss_streak_count = 0 ∧
    (Bot1.sessionInit cfg1 t).last_loss_amount = cfg1.base_bet ∧
    (Bot1.sessionInit cfg1 t).last_outcome = none ∧
    (Bot1.sessionInit cfg1 t).override_chance = none ∧
    (Bot1.sessionInit cfg1 t).total_bets = 0 ∧
    (Bot1.sessionInit cfg1 t).win_count = 0 ∧
    (Bot1.sessionInit cfg1 t).lose_count = 0 ∧
    (Bot1.sessionInit cfg1 t).current_strategy = cfg1.strategy ∧
    (Bot1.sessionInit cfg1 t).fibo_seq = t.fibo_seq := by
  refine ⟨rfl, rfl, rfl, rfl, rfl, rfl, rfl, rfl, rfl, rfl, rfl, rfl, rfl, rfl,
    rfl, ?_, ?_, ?_, ?_, ?_, ?_, ?_, ?_, ?_, ?_, ?_⟩ <;>
    simp [Bot1.sessionInit, apply_ite]

/-! ### C8 — jackpot_hunter (corrected) -/

/-- A concrete admissible sampler: always returns the upper argument. -/
def uniHi : ℚ → ℚ → ℚ := fun _ b => b

theorem uniHi_ok : UniformOk uniHi :=
  fun a b => ⟨min_le_right a b, le_max_right a b⟩

/-- A `bot1.py` state one round after its first loss since the last win. -/
def c8FirstLossSt : Bot1.State :=
  { ex1St with
    last_outcome := some "lose"
    loss_streak_count := 1
    current_bet := 100 }

/-- Counterexample to C8 as stated: in `bot1.py` the jackpot hunter raises
the wager on *every* loss — on the first loss since the last win (here
`loss_streak_count = 1`) a draw of 1.05 turns a wager of 100 into 105
instead of keeping it unchanged. -/
theorem claim8_jackpot_counterexample :
    c8FirstLossSt.loss_streak_count = 1 ∧
    (Bot1.strat_jackpot_hunter ex1Cfg c8FirstLossSt uniHi).1 = 105 ∧
    (105 : ℚ) ≠ 100 := by
  refine ⟨rfl, ?_, by norm_num⟩
  norm_num [Bot1.strat_jackpot_hunter, ex1Cfg, ex1St, c8FirstLossSt, uniHi,
    round8, round_eq]

/-- C8 amended: in `bot.py` the jackpot hunter keeps the starting wager
(the last placed amount, or the base wager if none) on the first loss of a
streak, multiplies it by the drawn factor from
`[jackpot_raise_min, jackpot_raise_max]` on later consecutive losses, and
on a non-loss resets the streak counter and returns the starting wager; in
`bot1.py` *every* loss (the first included) multiplies the current wager by
the drawn factor, and a non-loss returns the base wager. -/
theorem claim8_jackpot_amended (cfg : Bot.Config) (s s2 s3 : Bot.State)
    (u : ℚ → ℚ → ℚ) (cfg1 : Bot1.Config) (t t2 : Bot1.State)
    (hs : s.last_outcome = some "lose") (hs0 : s.jackpot_streak = 0)
    (hl2 : s2.last_outcome = some "lose") (hpos : 0 < s2.jackpot_streak)
    (hs3 : s3.last_outcome ≠ some "lose")
    (ht : t.last_outcome = some "lose")
    (ht2 : t2.last_outcome ≠ some "lose") :
    Bot.strat_jackpot_hunter cfg s u =
      ((if s.last_bet_amount > 0 then s.last_bet_amount else cfg.base_bet),
        { s with jackpot_streak := 1 }) ∧
    (Bot.strat_jackpot_hunter cfg s2 u).1 =
      round8 ((if s2.last_bet_amount > 0 then s2.last_bet_amount else cfg.base_bet) *
        u cfg.jackpot_raise_min cfg.jackpot_raise_max) ∧
    (Bot.strat_jackpot_hunter cfg s2 u).2.jackpot_streak = s2.jackpot_streak + 1 ∧
    Bot.strat_jackpot_hunter cfg s3 u =
      ((if s3.last_bet_amount > 0 then s3.last_bet_amount else cfg.base_bet),
        { s3 with jackpot_streak := 0 }) ∧
    (Bot1.strat_jackpot_hunter cfg1 t u).1 =
      round8 (t.current_bet * u cfg1.jackpot_raise_min cfg1.jackpot_raise_max) ∧
    (Bot1.strat_jackpot_hunter cfg1 t2 u).1 = cfg1.base_bet := by
  have h2 : s2.jackpot_streak + 1 ≠ 1 := by omega
  refine ⟨?_, ?_, ?_, ?_, ?_, ?_⟩
  · simp [Bot.strat_jackpot_hunter, hs, hs0]
  · simp [Bot.strat_jackpot_hunter, hl2, h2]
  · simp [Bot.strat_jackpot_hunter, hl2]
  · simp [Bot.strat_jackpot_hunter, hs3]
  · simp [Bot1.strat_jackpot_hunter, ht]
  · simp [Bot1.strat_jackpot_hunter, ht2]

/-- Witness for the amended C8 at concrete states and the draw 1.05. -/
theorem claim8_jackpot_amended_witness :
    (({ exSt with last_outcome := some "lose", last_bet_amount := 7 } :
        Bot.State).last_outcome = some "lose" ∧
      ({ exSt with last_outcome := some "lose", last_bet_amount := 7 } :
        Bot.State).jackpot_streak = 0 ∧
      ({ exSt with last_outcome := some "lose", jackpot_streak := 2 } :
        Bot.State).last_outcome = some "lose" ∧
      0 < ({ exSt with last_outcome := some "lose", jackpot_streak := 2 } :
        Bot.State).jackpot_streak ∧
      exSt.last_outcome ≠ some "lose" ∧
      ({ ex1St with last_outcome := some "lose", current_bet := 100 } :
        Bot1.State).last_outcome = some "lose" ∧
      ex1St.last_outcome ≠ some "lose") ∧
    (Bot.strat_jackpot_hunter exCfg
        { exSt with last_outcome := some "lose", last_bet_amount := 7 } uniHi).1 = 7 ∧
    (Bot1.strat_jackpot_hunter ex1Cfg
        { ex1St with last_outcome := some "lose", current_bet := 100 } uniHi).1 =
      round8 (100 * uniHi ex1Cfg.jackpot_raise_min ex1Cfg.jackpot_raise_max) := by
  have hmain := claim8_jackpot_amended exCfg
    { exSt with last_outcome := some "lose", last_bet_amount := 7 }
    { exSt with last_outcome := some "lose", jackpot_streak := 2 }
    exSt uniHi ex1Cfg
    { ex1St with last_outcome := some "lose", current_bet := 100 }
    ex1St rfl rfl rfl (by norm_num) (by simp [exSt]) rfl (by simp [ex1St])
  refine ⟨⟨rfl, rfl, rfl, by norm_num, by simp [exSt], rfl, by simp [ex1St]⟩, ?_, ?_⟩
  · rw [hmain.1]
    norm_num
  · exact hmain.2.2.2.2.1

/-! ### C9 — randomized strategy, uniform mode -/

theorem round8_between {lo hi x : ℚ} (hlo : Grid8 lo) (hhi : Grid8 hi)
    (h1 : lo ≤ x) (h2 : x ≤ hi) : lo ≤ round8 x ∧ round8 x ≤ hi :=
  ⟨hlo.round8_eq ▸ round8_mono h1, hhi.round8_eq ▸ round8_mono h2⟩

/-- C9: in uniform mode the randomized strategy's wager always lies between
the base wager and the most recent lost amount, inclusive, for any
admissible value of the uniform draw (`bot.py`, for any state reachable
after a loss, where the last placed amount is at most the last lost
amount; and `bot1.py`, whose upper bound is `max(last_loss, base)`), with
all amounts on the 8-digit wager grid and `base ≤ last_loss`. -/
theorem claim9_randomized_uniform_range (cfg : Bot.Config) (s : Bot.State)
    (u : ℚ → ℚ → ℚ) (cfg1 : Bot1.Config) (t : Bot1.State) (u1 : ℚ → ℚ → ℚ)
    (hmode : cfg.randomized_mode ≠ "multiplier")
    (hu : UniformOk u) (hu1 : UniformOk u1)
    (hb : Grid8 cfg.base_bet) (hl : Grid8 s.last_loss_amount)
    (hbl : cfg.base_bet ≤ s.last_loss_amount)
    (hstart : s.last_bet_amount ≤ s.last_loss_amount)
    (hb1 : Grid8 cfg1.base_bet) (hl1 : Grid8 t.last_loss_amount)
    (hbl1 : cfg1.base_bet ≤ t.last_loss_amount) :
    (cfg.base_bet ≤ Bot.strat_randomized cfg s u ∧
      Bot.strat_randomized cfg s u ≤ s.last_loss_amount) ∧
    (cfg1.base_bet ≤ Bot1.strat_randomized cfg1 t u1 ∧
      Bot1.strat_randomized cfg1 t u1 ≤ t.last_loss_amount) := by
  constructor
  · have hsle : (if s.last_bet_amount > 0 then s.last_bet_amount else cfg.base_bet) ≤
        s.last_loss_amount := by
      split_ifs with h
      · exact hstart
      · exact hbl
    have hup : max s.last_loss_amount
        (if s.last_bet_amount > 0 then s.last_bet_amount else cfg.base_bet) =
        s.last_loss_amount := max_eq_left hsle
    have hdraw := hu cfg.base_bet (max s.last_loss_amount
      (if s.last_bet_amount > 0 then s.last_bet_amount else cfg.base_bet))
    rw [hup, min_eq_left hbl, max_eq_right hbl] at hdraw
    simp only [Bot.strat_randomized]
    rw [if_neg hmode, hup]
    exact round8_between hb hl hdraw.1 hdraw.2
  · have hup : max t.last_loss_amount cfg1.base_bet = t.last_loss_amount :=
      max_eq_left hbl1
    have hdraw := hu1 cfg1.base_bet (max t.last_loss_amount cfg1.base_bet)
    rw [hup, min_eq_left hbl1, max_eq_right hbl1] at hdraw
    simp only [Bot1.strat_randomized]
    rw [hup]
    exact round8_between hb1 hl1 hdraw.1 hdraw.2

/-- A `bot.py` state just after losing 400 (base wager 100). -/
def c9St : Bot.State :=
  { exSt with
    last_loss_amount := 400
    last_bet_amount := 400 }

/-- A `bot.py` configuration with the randomized strategy in uniform mode. -/
def c9Cfg : Bot.Config :=
  { exCfg with
    base_bet := 100
    randomized_mode := "uniform" }

/-- Witness for C9: base 100, last loss 400 — the produced wager lies in
`[100, 400]` (here the draw is the lower end, yielding 100). -/
theorem claim9_randomized_uniform_range_witness :
    (c9Cfg.randomized_mode ≠ "multiplier" ∧ UniformOk uniLo ∧
      Grid8 c9Cfg.base_bet ∧ Grid8 c9St.last_loss_amount ∧
      c9Cfg.base_bet ≤ c9St.last_loss_amount ∧
      c9St.last_bet_amount ≤ c9St.last_loss_amount ∧
      Grid8 ex1Cfg.base_bet ∧
      Grid8 ({ ex1St with last_loss_amount := 400 } : Bot1.State).last_loss_amount ∧
      ex1Cfg.base_bet ≤ ({ ex1St with last_loss_amount := 400 } : Bot1.State).last_loss_amount) ∧
    (c9Cfg.base_bet ≤ Bot.strat_randomized c9Cfg c9St uniLo ∧
      Bot.strat_randomized c9Cfg c9St uniLo ≤ c9St.last_loss_amount) ∧
    (ex1Cfg.base_bet ≤
        Bot1.strat_randomized ex1Cfg { ex1St with last_loss_amount := 400 } uniLo ∧
      Bot1.strat_randomized ex1Cfg { ex1St with last_loss_amount := 400 } uniLo ≤
        ({ ex1St with last_loss_amount := 400 } : Bot1.State).last_loss_amount) := by
  have hg1 : Grid8 c9Cfg.base_bet := ⟨10000000000, by norm_num [c9Cfg, exCfg]⟩
  have hg2 : Grid8 c9St.last_loss_amount := ⟨40000000000, by norm_num [c9St, exSt]⟩
  have hg3 : Grid8 ex1Cfg.base_bet := ⟨100000000, by norm_num [ex1Cfg]⟩
  have hg4 : Grid8 ({ ex1St with last_loss_amount := 400 } : Bot1.State).last_loss_amount :=
    ⟨40000000000, by norm_num⟩
  have hmode : c9Cfg.randomized_mode ≠ "multiplier" := by simp [c9Cfg, exCfg]
  have hbl : c9Cfg.base_bet ≤ c9St.last_loss_amount := by norm_num [c9Cfg, c9St, exCfg, exSt]
  have hstart : c9St.last_bet_amount ≤ c9St.last_loss_amount := by norm_num [c9St, exSt]
  have hbl1 : ex1Cfg.base_bet ≤
      ({ ex1St with last_loss_amount := 400 } : Bot1.State).last_loss_amount := by
    norm_num [ex1Cfg]
  have hmain := claim9_randomized_uniform_range c9Cfg c9St uniLo ex1Cfg
    { ex1St with last_loss_amount := 400 } uniLo hmode uniLo_ok uniLo_ok
    hg1 hg2 hbl hstart hg3 hg4 hbl1
  exact ⟨⟨hmode, uniLo_ok, hg1, hg2, hbl, hstart, hg3, hg4, hbl1⟩, hmain.1, hmain.2⟩

/-! ### C10 — bot1.py cover-loss floor -/

theorem Bot1.dispatch_loss_grid8 (cfg : Bot1.Config) (s : Bot1.State)
    (u : ℚ → ℚ → ℚ) (hb : Grid8 cfg.base_bet) :
    Grid8 (Bot1.dispatchNext cfg false s u).1 := by
  unfold Bot1.dispatchNext Bot1.strat_martingale Bot1.strat_fibonacci
    Bot1.strat_dalembert Bot1.strat_flat Bot1.strat_jackpot_hunter
    Bot1.strat_high_risk_pulse Bot1.strat_randomized
  dsimp only
  split_ifs <;> simp_all <;> exact round8_grid8 _

theorem Bot1.dispatchNext_streaks1 (cfg : Bot1.Config) (win : Bool)
    (s : Bot1.State) (u : ℚ → ℚ → ℚ) :
    (Bot1.dispatchNext cfg win s u).2.loss_streak_count = s.loss_streak_count ∧
    (Bot1.dispatchNext cfg win s u).2.loss_streak_total = s.loss_streak_total := by
  unfold Bot1.dispatchNext Bot1.strat_fibonacci Bot1.strat_jackpot_hunter
    Bot1.strat_high_risk_pulse
  dsimp only
  split_ifs <;> simp

theorem Bot1.lossUpdate_bet (cfg : Bot1.Config) (s : Bot1.State)
    (inp : RoundInput) (bet : BetResult) :
    (Bot1.lossUpdate cfg s inp bet).current_bet =
      round8 (if (Bot1.dispatchNext cfg false (Bot1.lossLedger s bet) inp.uniform).1 <
          |(Bot1.lossLedger s bet).loss_streak_total| + cfg.base_bet
        then |(Bot1.lossLedger s bet).loss_streak_total| + cfg.base_bet
        else (Bot1.dispatchNext cfg false (Bot1.lossLedger s bet) inp.uniform).1) ∧
    (Bot1.lossUpdate cfg s inp bet).loss_streak_total =
      s.loss_streak_total + bet.amount := by
  have hd := Bot1.dispatchNext_streaks1 cfg false (Bot1.lossLedger s bet) inp.uniform
  have hlt : (Bot1.lossLedger s bet).loss_streak_total =
      s.loss_streak_total + bet.amount := rfl
  simp only [Bot1.lossUpdate, hd.2]
  split_ifs <;>
    simp [Bot1.switchStrategy, hd.2, hlt]

/-- C10: in `bot1.py`, after every losing round and for *every* strategy
variant, the wager prepared for the next round is the strategy's proposal
lifted to the cover-loss floor — `abs(cumulative streak loss) + base_bet` —
with no upper cap applied (the equality shows the exact shape), and in
particular it is at least the updated cumulative streak loss plus one base
wager (amounts on the 8-digit wager grid, non-negative loss amounts). -/
theorem claim10_cover_loss_floor (cfg1 : Bot1.Config) (t : Bot1.State)
    (inp : RoundInput) (bet : BetResult)
    (hr : inp.response = some bet)
    (hsl : ¬ t.session_profit ≤ cfg1.stop_loss)
    (htp : ¬ t.session_profit ≥ cfg1.take_profit)
    (hw : bet.state ≠ "win")
    (hb : Grid8 cfg1.base_bet) (ha : Grid8 bet.amount)
    (hlst : Grid8 t.loss_streak_total) :
    Bot1.step cfg1 t inp = .next t.current_bet
      (Bot1.lossUpdate cfg1 (Bot1.recordRound t bet) inp bet) ∧
    (Bot1.lossUpdate cfg1 (Bot1.recordRound t bet) inp bet).loss_streak_total =
      t.loss_streak_total + bet.amount ∧
    (Bot1.lossUpdate cfg1 (Bot1.recordRound t bet) inp bet).loss_streak_total +
        cfg1.base_bet ≤
      (Bot1.lossUpdate cfg1 (Bot1.recordRound t bet) inp bet).current_bet := by
  have hstep := Bot1.step_lose_eq1 cfg1 t inp bet hr hsl htp hw
  have hbet := Bot1.lossUpdate_bet cfg1 (Bot1.recordRound t bet) inp bet
  have hrec : (Bot1.recordRound t bet).loss_streak_total = t.loss_streak_total := rfl
  have htot : (Bot1.lossUpdate cfg1 (Bot1.recordRound t bet) inp bet).loss_streak_total =
      t.loss_streak_total + bet.amount := by
    rw [hbet.2, hrec]
  refine ⟨hstep, htot, ?_⟩
  rw [htot, hbet.1]
  have hlt : (Bot1.lossLedger (Bot1.recordRound t bet) bet).loss_streak_total =
      t.loss_streak_total + bet.amount := rfl
  rw [hlt]
  set nb := (Bot1.dispatchNext cfg1 false
    (Bot1.lossLedger (Bot1.recordRound t bet) bet) inp.uniform).1 with hnb
  have hnbg : Grid8 nb := Bot1.dispatch_loss_grid8 cfg1 _ inp.uniform hb
  have hcovg : Grid8 (|t.loss_streak_total + bet.amount| + cfg1.base_bet) :=
    (Grid8.abs (hlst.add ha)).add hb
  have habs : t.loss_streak_total + bet.amount ≤ |t.loss_streak_total + bet.amount| :=
    le_abs_self _
  split_ifs with hc
  · rw [hcovg.round8_eq]
    linarith
  · rw [hnbg.round8_eq]
    push_neg at hc
    linarith

/-- Witness for C10: a first loss of 1 from the fresh `bot1.py` state under
the flat strategy; the floor forces the next wager up to 2. -/
theorem claim10_cover_loss_floor_witness :
    ((loseInput 1).response = some { state := "lose", profit := 0, amount := 1 } ∧
      ¬ ({ ex1St with current_strategy := "flat" } : Bot1.State).session_profit ≤
        ex1Cfg.stop_loss ∧
      ¬ ({ ex1St with current_strategy := "flat" } : Bot1.State).session_profit ≥
        ex1Cfg.take_profit ∧
      ("lose" : String) ≠ "win" ∧ Grid8 ex1Cfg.base_bet ∧ Grid8 (1 : ℚ) ∧
      Grid8 ({ ex1St with current_strategy := "flat" } : Bot1.State).loss_streak_total) ∧
    (Bot1.lossUpdate ex1Cfg
        (Bot1.recordRound { ex1St with current_strategy := "flat" }
          { state := "lose", profit := 0, amount := 1 })
        (loseInput 1) { state := "lose", profit := 0, amount := 1 }).loss_streak_total +
      ex1Cfg.base_bet ≤
    (Bot1.lossUpdate ex1Cfg
        (Bot1.recordRound { ex1St with current_strategy := "flat" }
          { state := "lose", profit := 0, amount := 1 })
        (loseInput 1) { state := "lose", profit := 0, amount := 1 }).current_bet := by
  have h2 : ¬ ({ ex1St with current_strategy := "flat" } : Bot1.State).session_profit ≤
      ex1Cfg.stop_loss := by norm_num [ex1St, ex1Cfg]
  have h3 : ¬ ({ ex1St with current_strategy := "flat" } : Bot1.State).session_profit ≥
      ex1Cfg.take_profit := by norm_num [ex1St, ex1Cfg]
  have hg1 : Grid8 ex1Cfg.base_bet := ⟨100000000, by norm_num [ex1Cfg]⟩
  have hg2 : Grid8 (1 : ℚ) := ⟨100000000, by norm_num⟩
  have hg3 : Grid8 ({ ex1St with current_strategy := "flat" } :
      Bot1.State).loss_streak_total := ⟨0, by norm_num [ex1St]⟩
  have hmain := claim10_cover_loss_floor ex1Cfg
    { ex1St with current_strategy := "flat" } (loseInput 1)
    { state := "lose", profit := 0, amount := 1 } rfl h2 h3 (by decide)
    hg1 hg2 hg3
  exact ⟨⟨rfl, h2, h3, by decide, hg1, hg2, hg3⟩, hmain.2.2⟩
